import Mathlib

/-!
Verification of the segment-timeline construction and video-assembly pipeline
of the ai-pressroom repository (src/src/video/video_generator.py and
src/src/video/avatar_generator.py), as a shallow embedding in Lean.

Durations are embedded as rationals; Python dicts (insertion ordered, with
distinct keys) are embedded as association lists where lookup takes the first
match and the value sequence is the second projections in order; the
filesystem and the external media tool are passed in explicitly.
-/

namespace Pressroom

/-- One line of the debate script, with the fields video_generator.py reads
(`line.speaker`, `line.text`, `line.estimated_duration_sec`,
`line.pause_after_sec`); spec section 3: both durations are seconds. -/
structure DebateLine where
  speaker : String
  text : String
  estimated_duration_sec : ℚ
  pause_after_sec : ℚ
  deriving Repr, DecidableEq

/-- The debate script: an ordered sequence of lines (`script.lines`). -/
structure DebateScript where
  lines : List DebateLine
  deriving Repr, DecidableEq

/-- One entry of the list `_create_segment_list` returns: the dict literal at
video_generator.py lines 105-111. Paths are strings. -/
structure Segment where
  speaker : String
  avatar : String
  start : ℚ
  duration : ℚ
  text : String
  deriving Repr, DecidableEq

/-- The failure outcomes of the pipeline, named as in the spec's error
taxonomy (section 7). In the Python source `NoAvatarsAvailableError` is the
IndexError raised by `list(avatars.values())[0]` on an empty dict,
`RenderError` is the error raised on a non-zero exit of the external tool,
and `InvalidDurationError` never occurs (the code has no duration check). -/
inductive VideoError where
  | NoAvatarsAvailableError : VideoError
  | InvalidDurationError : VideoError
  | RenderError : String → VideoError
  deriving Repr, DecidableEq

/-- Avatar resolution for one line, video_generator.py lines 100-103:
`avatars.get(speaker, avatars.get("chatgpt", list(avatars.values())[0]))`.
Python evaluates the innermost default first, so with an empty dict the
subscript `[0]` raises (IndexError, the spec's NoAvatarsAvailableError)
before any lookup; otherwise `dict.get(k, d)` is `(lookup k).getD d`. -/
def avatar_path_for (avatars : List (String × String)) (speaker : String) :
    Except VideoError String :=
  match (avatars.map Prod.snd).head? with
  | none => Except.error VideoError.NoAvatarsAvailableError
  | some firstValue =>
      Except.ok ((avatars.lookup speaker).getD
        ((avatars.lookup "chatgpt").getD firstValue))

/-- The loop body of `_create_segment_list` (video_generator.py lines 95-113):
walk the lines in order carrying `current_time`, compute
`duration = line.estimated_duration_sec + line.pause_after_sec`, resolve the
avatar, emit one segment per line, and advance `current_time` by the
duration. -/
def create_segment_list_go :
    List DebateLine → List (String × String) → ℚ → Except VideoError (List Segment)
  | [], _, _ => Except.ok []
  | line :: rest, avatars, current_time =>
    let duration := line.estimated_duration_sec + line.pause_after_sec
    match avatar_path_for avatars line.speaker with
    | Except.error e => Except.error e
    | Except.ok avatar_path =>
      match create_segment_list_go rest avatars (current_time + duration) with
      | Except.error e => Except.error e
      | Except.ok segs =>
          Except.ok ({ speaker := line.speaker
                       avatar := avatar_path
                       start := current_time
                       duration := duration
                       text := line.text } :: segs)

/-- `_create_segment_list` (video_generator.py lines 77-115): `segments = []`,
`current_time = 0.0`, then the loop over `script.lines`. -/
def create_segment_list (script : DebateScript) (avatars : List (String × String)) :
    Except VideoError (List Segment) :=
  create_segment_list_go script.lines avatars 0

/-- The outcome of one external media tool invocation: its exit code and
captured stdout/stderr (`subprocess.run(..., capture_output=True)`). -/
structure ToolResult where
  exitCode : ℕ
  stdout : String
  stderr : String
  deriving Repr, DecidableEq

/-- `_create_segment_video` (video_generator.py lines 156-207): the tool is
invoked with `check=True`; a non-zero exit raises CalledProcessError, which
carries the tool's stderr and is re-raised unchanged (lines 198-207) — the
spec's RenderError. The ffmpeg argument template itself has no control
flow, so the invocation is abstracted by its ToolResult. -/
def create_segment_video (result : ToolResult) : Except VideoError Unit :=
  if result.exitCode = 0 then Except.ok ()
  else Except.error (VideoError.RenderError result.stderr)

/-- `_render_video` (video_generator.py lines 209-251): a non-zero exit of the
concat/mux invocation raises `RuntimeError(f"Failed to render video: {e.stderr}")`
(line 251) — the spec's RenderError carrying the tool's stderr. -/
def render_video (result : ToolResult) : Except VideoError Unit :=
  if result.exitCode = 0 then Except.ok ()
  else Except.error (VideoError.RenderError ("Failed to render video: " ++ result.stderr))

/-- Python's `f"{i:04d}"` on a natural number: the decimal digits, left-padded
with zeros to width 4. -/
def formatIndex (i : ℕ) : String :=
  if (toString i).length < 4 then
    String.mk (List.replicate (4 - (toString i).length) '0') ++ toString i
  else toString i

/-- The path of segment clip i, video_generator.py line 133:
`work_dir / f"segment_{i:04d}.mp4"` (work_dir taken as an absolute path). -/
def segmentVideoPath (work_dir : String) (i : ℕ) : String :=
  work_dir ++ "/segment_" ++ formatIndex i ++ ".mp4"

/-- A single-quote character, written by code point to keep it out of string
literals. -/
def squote : String := String.singleton (Char.ofNat 39)

/-- One manifest line, video_generator.py line 151:
`f"file '{seg_video.absolute()}'"`. -/
def concatLine (work_dir : String) (i : ℕ) : String :=
  "file " ++ squote ++ segmentVideoPath work_dir i ++ squote

/-- The render loop of `_create_concat_file` (video_generator.py lines
132-146), indexing the segments from `k`: clip i is skipped when its file
already exists (`fileExists i`), otherwise the tool is invoked
(`tool i` is that invocation's outcome) and a failure propagates at once,
ending the loop. Returns the indices the tool was invoked on, and the error
if one occurred. -/
def renderSegmentsLoop (tool : ℕ → ToolResult) (fileExists : ℕ → Bool) :
    List Segment → ℕ → List ℕ × Option VideoError
  | [], _ => ([], none)
  | _seg :: rest, i =>
    if fileExists i then renderSegmentsLoop tool fileExists rest (i + 1)
    else
      match create_segment_video (tool i) with
      | Except.error e => ([i], some e)
      | Except.ok _ =>
          let result := renderSegmentsLoop tool fileExists rest (i + 1)
          (i :: result.1, result.2)

/-- `_create_concat_file` (video_generator.py lines 117-154): run the render
loop over the segments from index 0; if it raised, the error propagates and
no manifest is written; otherwise the manifest holds one `file` line per
segment, in segment order. Returns the manifest lines and the indices the
tool was invoked on. -/
def create_concat_file (work_dir : String) (tool : ℕ → ToolResult)
    (fileExists : ℕ → Bool) (segments : List Segment) :
    Except VideoError (List String × List ℕ) :=
  match renderSegmentsLoop tool fileExists segments 0 with
  | (_, some e) => Except.error e
  | (rendered, none) =>
      Except.ok ((List.range segments.length).map (concatLine work_dir), rendered)

/-- The non-recursive glob `work_dir.glob("segment_*.mp4")` of
video_generator.py line 258: a name directly in the working directory (no
path separator in it) that starts with "segment_", ends with ".mp4", and is
long enough for the star to match (8 + 4 characters around it). -/
def matchesSegmentGlob (nm : String) : Bool :=
  !(nm.toList.contains '/') && "segment_".toList.isPrefixOf nm.toList
    && ".mp4".toList.isSuffixOf nm.toList && decide (12 ≤ nm.length)

/-- `cleanup_temp_files` (video_generator.py lines 253-266) on the working
directory, modelled as the list of its file paths relative to `work_dir`
(entries under subdirectories such as `avatars/` contain a separator):
unlink every glob match, then unlink `concat_list.txt` if it exists. Both
steps only ever delete, so the state is the evident filter. -/
def cleanup_temp_files (work_dir_files : List String) : List String :=
  (work_dir_files.filter (fun nm => !matchesSegmentGlob nm)).filter
    (fun nm => !(nm == "concat_list.txt"))

/-- `generate_avatar` (avatar_generator.py lines 50-189) as seen by its
caller: it always returns `output_path = self.output_dir / f"avatar_{speaker}.png"`
(line 67, returned at line 189). The PIL drawing between those lines writes
the image file at that path and never changes the returned value; the
character configuration (an arbitrary dict, type α here) only affects pixels
and text, not the path. -/
def generate_avatar {α : Type} (output_dir : String) (speaker : String)
    (_character : α) : String :=
  output_dir ++ "/avatar_" ++ speaker ++ ".png"

/-- `generate_all_avatars` (avatar_generator.py lines 191-211): iterate the
characters dict in order, generate each avatar, and record
`avatars[speaker] = avatar_path`. Since the input dict has distinct keys,
the built dict is the in-order association list of the results. -/
def generate_all_avatars {α : Type} (output_dir : String)
    (characters : List (String × α)) : List (String × String) :=
  characters.map (fun sc => (sc.1, generate_avatar output_dir sc.1 sc.2))

/-- Concrete evaluation: the spec section 8 end-to-end scenario. -/
theorem create_segment_list_example :
    create_segment_list ⟨[⟨"gemini", "Hello", 2, 1⟩, ⟨"claude", "Hi", 3, 1⟩]⟩
      [("gemini", "g.png"), ("claude", "c.png")] =
    Except.ok [⟨"gemini", "g.png", 0, 3, "Hello"⟩, ⟨"claude", "c.png", 3, 4, "Hi"⟩] := by
  norm_num [create_segment_list, create_segment_list_go, avatar_path_for, List.lookup]
  decide

/-- Concrete evaluation: empty avatars with a non-empty script fails. -/
theorem create_segment_list_empty_avatars_example :
    create_segment_list ⟨[⟨"x", "t", 1, 0⟩]⟩ [] =
    Except.error VideoError.NoAvatarsAvailableError := by
  norm_num [create_segment_list, create_segment_list_go, avatar_path_for, List.lookup]

/-- Unfolding equation for the cons case of the loop (the `let duration`
zeta-reduced). -/
theorem create_segment_list_go_cons (line : DebateLine) (rest : List DebateLine)
    (avatars : List (String × String)) (t : ℚ) :
    create_segment_list_go (line :: rest) avatars t =
      match avatar_path_for avatars line.speaker with
      | Except.error e => Except.error e
      | Except.ok p =>
        match create_segment_list_go rest avatars
            (t + (line.estimated_duration_sec + line.pause_after_sec)) with
        | Except.error e => Except.error e
        | Except.ok segs =>
            Except.ok ({ speaker := line.speaker
                         avatar := p
                         start := t
                         duration := line.estimated_duration_sec + line.pause_after_sec
                         text := line.text } :: segs) := rfl

/-- With a non-empty avatars dict, avatar resolution never fails and returns
the lookup chain speaker, then "chatgpt", then the first-inserted value. -/
theorem avatar_path_for_cons (a : String × String) (as : List (String × String))
    (speaker : String) :
    avatar_path_for (a :: as) speaker =
      Except.ok ((List.lookup speaker (a :: as)).getD
        ((List.lookup "chatgpt" (a :: as)).getD a.2)) := rfl

/-- On an empty avatars dict, avatar resolution fails. -/
theorem avatar_path_for_nil (speaker : String) :
    avatar_path_for [] speaker = Except.error VideoError.NoAvatarsAvailableError := rfl

/-- A successful run of the loop yields one segment per remaining line, in
order: matching speaker and text, duration the line's
`estimated_duration_sec + pause_after_sec`, start the running sum of the
prior durations offset by the accumulator, and the avatar as resolved by
`avatar_path_for`. -/
theorem create_segment_list_go_spec (lines : List DebateLine) :
    ∀ (avatars : List (String × String)) (t : ℚ) (segs : List Segment),
      create_segment_list_go lines avatars t = Except.ok segs →
      segs.length = lines.length ∧
      ∀ i (hi : i < segs.length) (hl : i < lines.length),
        (segs.get ⟨i, hi⟩).speaker = (lines.get ⟨i, hl⟩).speaker ∧
        (segs.get ⟨i, hi⟩).text = (lines.get ⟨i, hl⟩).text ∧
        (segs.get ⟨i, hi⟩).duration =
          (lines.get ⟨i, hl⟩).estimated_duration_sec +
            (lines.get ⟨i, hl⟩).pause_after_sec ∧
        (segs.get ⟨i, hi⟩).start = t + ((segs.take i).map Segment.duration).sum ∧
        avatar_path_for avatars (lines.get ⟨i, hl⟩).speaker =
          Except.ok (segs.get ⟨i, hi⟩).avatar := by
  induction lines with
  | nil =>
      intro avatars t segs h
      simp only [create_segment_list_go, Except.ok.injEq] at h
      subst h
      exact ⟨rfl, fun i hi => absurd hi (by simp)⟩
  | cons line rest ih =>
      intro avatars t segs h
      rw [create_segment_list_go_cons] at h
      cases hap : avatar_path_for avatars line.speaker with
      | error e => rw [hap] at h; exact absurd h (by simp)
      | ok p =>
          rw [hap] at h
          cases hrec : create_segment_list_go rest avatars
              (t + (line.estimated_duration_sec + line.pause_after_sec)) with
          | error e => rw [hrec] at h; exact absurd h (by simp)
          | ok segs2 =>
              rw [hrec] at h
              simp only [Except.ok.injEq] at h
              subst h
              obtain ⟨ihlen, ihspec⟩ := ih avatars _ segs2 hrec
              refine ⟨by simp [ihlen], ?_⟩
              intro i hi hl
              match i with
              | 0 =>
                  refine ⟨rfl, rfl, rfl, by simp, ?_⟩
                  simpa using hap
              | Nat.succ j =>
                  have hj : j < segs2.length := by simpa using hi
                  have hjl : j < rest.length := by simpa using hl
                  obtain ⟨h1, h2, h3, h4, h5⟩ := ihspec j hj hjl
                  refine ⟨by simpa using h1, by simpa using h2, by simpa using h3,
                    ?_, by simpa using h5⟩
                  simp only [List.get_cons_succ, List.take_succ_cons, List.map_cons,
                    List.sum_cons]
                  rw [h4]
                  ring

/-- The loop fails exactly when the avatars dict is empty and at least one
line remains, and the failure is always the empty-avatars one. -/
theorem create_segment_list_go_error (lines : List DebateLine) :
    ∀ (avatars : List (String × String)) (t : ℚ) (e : VideoError),
      create_segment_list_go lines avatars t = Except.error e ↔
        avatars = [] ∧ lines ≠ [] ∧ e = VideoError.NoAvatarsAvailableError := by
  induction lines with
  | nil =>
      intro avatars t e
      simp [create_segment_list_go]
  | cons line rest ih =>
      intro avatars t e
      cases avatars with
      | nil =>
          rw [create_segment_list_go_cons, avatar_path_for_nil]
          simp [eq_comm]
      | cons a as =>
          rw [create_segment_list_go_cons, avatar_path_for_cons]
          cases hrec : create_segment_list_go rest (a :: as)
              (t + (line.estimated_duration_sec + line.pause_after_sec)) with
          | error e2 =>
              exact absurd ((ih (a :: as) _ e2).mp hrec).1 (by simp)
          | ok segs2 => simp

/-- With a non-empty avatars dict the loop always succeeds. -/
theorem create_segment_list_go_ok (lines : List DebateLine)
    (avatars : List (String × String)) (t : ℚ) (hav : avatars ≠ []) :
    ∃ segs, create_segment_list_go lines avatars t = Except.ok segs := by
  cases hgo : create_segment_list_go lines avatars t with
  | error e =>
      exact absurd ((create_segment_list_go_error lines avatars t e).mp hgo).1 hav
  | ok segs => exact ⟨segs, rfl⟩

/-- Claim C1: in every successful run of the timeline builder, each segment's
start offset equals the exact sum of the durations of the segments before it
(so segment 0 starts at 0.0), and each segment's duration is its line's
`estimated_duration_sec + pause_after_sec`. -/
theorem create_segment_list_cumulative_start
    (script : DebateScript) (avatars : List (String × String))
    (segs : List Segment)
    (h : create_segment_list script avatars = Except.ok segs)
    (i : ℕ) (hi : i < segs.length) :
    (segs.get ⟨i, hi⟩).start = ((segs.take i).map Segment.duration).sum ∧
    ∃ hl : i < script.lines.length,
      (segs.get ⟨i, hi⟩).duration =
        (script.lines.get ⟨i, hl⟩).estimated_duration_sec +
          (script.lines.get ⟨i, hl⟩).pause_after_sec := by
  obtain ⟨hlen, hspec⟩ := create_segment_list_go_spec script.lines avatars 0 segs h
  have hl : i < script.lines.length := hlen ▸ hi
  obtain ⟨_, _, h3, h4, _⟩ := hspec i hi hl
  exact ⟨by simpa using h4, hl, h3⟩

/-- Witness for C1 at the spec section 8 end-to-end scenario (durations 2+1
and 3+1): the second segment starts at the first segment's duration. -/
theorem create_segment_list_cumulative_start_witness :
    (([⟨"gemini", "g.png", 0, 3, "Hello"⟩, ⟨"claude", "c.png", 3, 4, "Hi"⟩] :
        List Segment).get ⟨1, by norm_num⟩).start =
      ((([⟨"gemini", "g.png", 0, 3, "Hello"⟩, ⟨"claude", "c.png", 3, 4, "Hi"⟩] :
        List Segment).take 1).map Segment.duration).sum :=
  (create_segment_list_cumulative_start
    ⟨[⟨"gemini", "Hello", 2, 1⟩, ⟨"claude", "Hi", 3, 1⟩]⟩
    [("gemini", "g.png"), ("claude", "c.png")]
    [⟨"gemini", "g.png", 0, 3, "Hello"⟩, ⟨"claude", "c.png", 3, 4, "Hi"⟩]
    (by norm_num [create_segment_list, create_segment_list_go, avatar_path_for,
        List.lookup]; decide)
    1 (by norm_num)).1

/-- Claim C2: with a non-empty avatars dict the timeline builder succeeds and
returns exactly one segment per line of the script, in script order (same
speaker and same text at every index); in particular the output length equals
the script's line count. -/
theorem create_segment_list_one_segment_per_line
    (script : DebateScript) (avatars : List (String × String))
    (hav : avatars ≠ []) :
    ∃ segs, create_segment_list script avatars = Except.ok segs ∧
      segs.length = script.lines.length ∧
      ∀ i (hi : i < segs.length) (hl : i < script.lines.length),
        (segs.get ⟨i, hi⟩).speaker = (script.lines.get ⟨i, hl⟩).speaker ∧
        (segs.get ⟨i, hi⟩).text = (script.lines.get ⟨i, hl⟩).text := by
  obtain ⟨segs, hok⟩ := create_segment_list_go_ok script.lines avatars 0 hav
  obtain ⟨hlen, hspec⟩ := create_segment_list_go_spec script.lines avatars 0 segs hok
  exact ⟨segs, hok, hlen, fun i hi hl => ⟨(hspec i hi hl).1, (hspec i hi hl).2.1⟩⟩

/-- Witness for C2 at a concrete two-line script with two avatars. -/
theorem create_segment_list_one_segment_per_line_witness :
    ∃ segs, create_segment_list
        ⟨[⟨"gemini", "Hello", 2, 1⟩, ⟨"claude", "Hi", 3, 1⟩]⟩
        [("gemini", "g.png"), ("claude", "c.png")] = Except.ok segs ∧
      segs.length =
        (⟨[⟨"gemini", "Hello", 2, 1⟩, ⟨"claude", "Hi", 3, 1⟩]⟩ :
          DebateScript).lines.length ∧
      ∀ i (hi : i < segs.length)
        (hl : i < (⟨[⟨"gemini", "Hello", 2, 1⟩, ⟨"claude", "Hi", 3, 1⟩]⟩ :
          DebateScript).lines.length),
        (segs.get ⟨i, hi⟩).speaker =
          ((⟨[⟨"gemini", "Hello", 2, 1⟩, ⟨"claude", "Hi", 3, 1⟩]⟩ :
            DebateScript).lines.get ⟨i, hl⟩).speaker ∧
        (segs.get ⟨i, hi⟩).text =
          ((⟨[⟨"gemini", "Hello", 2, 1⟩, ⟨"claude", "Hi", 3, 1⟩]⟩ :
            DebateScript).lines.get ⟨i, hl⟩).text :=
  create_segment_list_one_segment_per_line
    ⟨[⟨"gemini", "Hello", 2, 1⟩, ⟨"claude", "Hi", 3, 1⟩]⟩
    [("gemini", "g.png"), ("claude", "c.png")] (by simp)

/-- Claim C3: per line the avatar is resolved by direct lookup of the speaker,
falling back to the "chatgpt" entry, falling back to the first-inserted
avatar value; and the build fails — with the empty-avatars error and no
other — exactly when the avatars dict is empty and the script is non-empty. -/
theorem create_segment_list_avatar_resolution
    (script : DebateScript) (avatars : List (String × String)) :
    (∀ segs, create_segment_list script avatars = Except.ok segs →
      ∀ i (hi : i < segs.length) (hl : i < script.lines.length),
        (segs.get ⟨i, hi⟩).avatar =
          (avatars.lookup ((script.lines.get ⟨i, hl⟩).speaker)).getD
            ((avatars.lookup "chatgpt").getD ((avatars.map Prod.snd).headI))) ∧
    (∀ e, create_segment_list script avatars = Except.error e ↔
      avatars = [] ∧ script.lines ≠ [] ∧ e = VideoError.NoAvatarsAvailableError) := by
  constructor
  · intro segs h i hi hl
    obtain ⟨hlen, hspec⟩ := create_segment_list_go_spec script.lines avatars 0 segs h
    obtain ⟨_, _, _, _, h5⟩ := hspec i hi hl
    cases avatars with
    | nil => rw [avatar_path_for_nil] at h5; exact absurd h5 (by simp)
    | cons a as =>
        rw [avatar_path_for_cons] at h5
        simp only [Except.ok.injEq] at h5
        rw [← h5]
        rfl
  · intro e
    exact create_segment_list_go_error script.lines avatars 0 e

/-- Counterexample to claim C4 as stated: the line ("chatgpt", "hi") with
estimated_duration_sec = 0 and pause_after_sec = 0 has computed duration
0 ≤ 0, yet the builder succeeds with a zero-duration segment instead of
failing with InvalidDurationError — the code has no duration check. -/
theorem create_segment_list_zero_duration_accepted :
    create_segment_list ⟨[⟨"chatgpt", "hi", 0, 0⟩]⟩ [("chatgpt", "c.png")] =
      Except.ok [⟨"chatgpt", "c.png", 0, 0, "hi"⟩] ∧
    ¬ create_segment_list ⟨[⟨"chatgpt", "hi", 0, 0⟩]⟩ [("chatgpt", "c.png")] =
      Except.error VideoError.InvalidDurationError := by
  have h : create_segment_list ⟨[⟨"chatgpt", "hi", 0, 0⟩]⟩ [("chatgpt", "c.png")] =
      Except.ok [⟨"chatgpt", "c.png", 0, 0, "hi"⟩] := by
    norm_num [create_segment_list, create_segment_list_go, avatar_path_for,
      List.lookup]
  exact ⟨h, by rw [h]; simp⟩

/-- Claim C4 amended: the timeline builder computes each segment's duration as
`estimated_duration_sec + pause_after_sec` but performs no validation on it —
it never fails with InvalidDurationError, not even for durations ≤ 0. -/
theorem create_segment_list_duration_no_validation
    (script : DebateScript) (avatars : List (String × String)) :
    create_segment_list script avatars ≠ Except.error VideoError.InvalidDurationError ∧
    ∀ segs, create_segment_list script avatars = Except.ok segs →
      ∀ i (hi : i < segs.length) (hl : i < script.lines.length),
        (segs.get ⟨i, hi⟩).duration =
          (script.lines.get ⟨i, hl⟩).estimated_duration_sec +
            (script.lines.get ⟨i, hl⟩).pause_after_sec := by
  constructor
  · intro hcontra
    have herr :=
      (create_segment_list_go_error script.lines avatars 0 _).mp hcontra
    exact absurd herr.2.2 (by simp)
  · intro segs h i hi hl
    exact ((create_segment_list_go_spec script.lines avatars 0 segs h).2 i hi hl).2.2.1

/-- Claim C9: an empty script yields an empty segment list and no error, for
every avatars dict — the empty one included. -/
theorem create_segment_list_empty_script (avatars : List (String × String)) :
    create_segment_list ⟨[]⟩ avatars = Except.ok [] ∧
    ∀ e, create_segment_list ⟨[]⟩ avatars ≠ Except.error e := by
  refine ⟨rfl, fun e h => ?_⟩
  simp [create_segment_list, create_segment_list_go] at h


/-- Concrete evaluation of the render loop at the tool-failure scenario. -/
theorem renderSegmentsLoop_example :
    renderSegmentsLoop (fun j => if j = 1 then ⟨1, "", "invalid data found"⟩ else ⟨0, "", ""⟩)
      (fun _ => false) [⟨"a", "a.png", 0, 1, "x"⟩, ⟨"b", "b.png", 1, 1, "y"⟩, ⟨"c", "c.png", 2, 1, "z"⟩] 0 =
    ([0, 1], some (VideoError.RenderError "invalid data found")) := by
  norm_num [renderSegmentsLoop, create_segment_video]

/-- If index i is the first non-skipped failing invocation, the loop stops
there: it reports the RenderError carrying that invocation's stderr, and no
index after i is ever invoked. -/
theorem renderSegmentsLoop_fail (segments : List Segment) :
    ∀ (k i : ℕ) (tool : ℕ → ToolResult) (fe : ℕ → Bool),
      k ≤ i → i < k + segments.length →
      fe i = false → (tool i).exitCode ≠ 0 →
      (∀ j, k ≤ j → j < i → fe j = false → (tool j).exitCode = 0) →
      (renderSegmentsLoop tool fe segments k).2 =
          some (VideoError.RenderError (tool i).stderr) ∧
      ∀ j ∈ (renderSegmentsLoop tool fe segments k).1, j ≤ i := by
  induction segments with
  | nil =>
      intro k i tool fe hki hik hfe hfail hprev
      simp at hik
      omega
  | cons seg rest ih =>
      intro k i tool fe hki hik hfe hfail hprev
      by_cases hk : i = k
      · subst hk
        simp only [renderSegmentsLoop, hfe, Bool.false_eq_true, if_false,
          create_segment_video, if_neg hfail]
        constructor
        · simp
        · intro j hj
          simp at hj
          omega
      · have hklt : k < i := by omega
        cases hfek : fe k with
        | true =>
            simp only [renderSegmentsLoop, hfek, if_true]
            exact ih (k + 1) i tool fe (by omega) (by simp at hik; omega) hfe hfail
              (fun j h1 h2 h3 => hprev j (by omega) h2 h3)
        | false =>
            have hok : (tool k).exitCode = 0 := hprev k le_rfl hklt hfek
            simp only [renderSegmentsLoop, hfek, Bool.false_eq_true, if_false,
              create_segment_video, if_pos hok]
            obtain ⟨h2, h1⟩ := ih (k + 1) i tool fe (by omega)
              (by simp at hik; omega) hfe hfail
              (fun j ha hb hc => hprev j (by omega) hb hc)
            refine ⟨h2, ?_⟩
            intro j hj
            rcases List.mem_cons.mp hj with hjk | hjm
            · omega
            · exact h1 j hjm

/-- Every index the loop invokes the tool on is one whose clip file did not
already exist: pre-existing clips are never re-rendered. -/
theorem renderSegmentsLoop_mem (segments : List Segment) :
    ∀ (k : ℕ) (tool : ℕ → ToolResult) (fe : ℕ → Bool) (j : ℕ),
      j ∈ (renderSegmentsLoop tool fe segments k).1 → fe j = false := by
  induction segments with
  | nil => intro k tool fe j hj; simp [renderSegmentsLoop] at hj
  | cons seg rest ih =>
      intro k tool fe j hj
      by_cases hfek : fe k = true
      · simp only [renderSegmentsLoop, hfek, if_true] at hj
        exact ih (k + 1) tool fe j hj
      · have hfek2 : fe k = false := by
          cases h : fe k
          · rfl
          · exact absurd h hfek
        simp only [renderSegmentsLoop, hfek2, Bool.false_eq_true, if_false,
          create_segment_video] at hj
        by_cases htool : (tool k).exitCode = 0
        · rw [if_pos htool] at hj
          rcases List.mem_cons.mp hj with hjk | hjm
          · rw [hjk]; exact hfek2
          · exact ih (k + 1) tool fe j hjm
        · rw [if_neg htool] at hj
          simp at hj
          rw [hj]; exact hfek2

/-- `create_concat_file` unfolded over the loop's outcome. -/
theorem create_concat_file_of_loop (work_dir : String) (tool : ℕ → ToolResult)
    (fe : ℕ → Bool) (segments : List Segment) :
    create_concat_file work_dir tool fe segments =
      match (renderSegmentsLoop tool fe segments 0).2 with
      | some e => Except.error e
      | none =>
          Except.ok ((List.range segments.length).map (concatLine work_dir),
            (renderSegmentsLoop tool fe segments 0).1) := by
  unfold create_concat_file
  cases hres : renderSegmentsLoop tool fe segments 0 with
  | mk l o => cases o <;> rfl

/-- A successful `create_concat_file` run returns the in-order manifest over
all segment indices and the loop's invocation record, and means the loop
raised no error. -/
theorem create_concat_file_ok (work_dir : String) (tool : ℕ → ToolResult)
    (fe : ℕ → Bool) (segments : List Segment) (manifest : List String)
    (rendered : List ℕ)
    (h : create_concat_file work_dir tool fe segments =
      Except.ok (manifest, rendered)) :
    manifest = (List.range segments.length).map (concatLine work_dir) ∧
    rendered = (renderSegmentsLoop tool fe segments 0).1 ∧
    (renderSegmentsLoop tool fe segments 0).2 = none := by
  rw [create_concat_file_of_loop] at h
  cases ho : (renderSegmentsLoop tool fe segments 0).2 with
  | some e => rw [ho] at h; exact absurd h (by simp)
  | none =>
      rw [ho] at h
      simp only [Except.ok.injEq, Prod.mk.injEq] at h
      exact ⟨h.1.symm, h.2.symm, rfl⟩

/-- `formatIndex` really zero-pads: it is the decimal digits preceded by some
run of zero characters, with total width exactly max 4 (number of digits). -/
theorem formatIndex_zero_pad (i : ℕ) :
    (∃ z : String, formatIndex i = z ++ toString i ∧ ∀ c ∈ z.toList, c = '0') ∧
    (formatIndex i).length = max 4 (toString i).length := by
  unfold formatIndex
  by_cases h : (toString i).length < 4
  · rw [if_pos h]
    constructor
    · refine ⟨String.mk (List.replicate (4 - (toString i).length) '0'), rfl, ?_⟩
      intro c hc
      exact List.eq_of_mem_replicate (by simpa [String.toList] using hc)
    · rw [String.length_append, String.mk_length, List.length_replicate]
      omega
  · rw [if_neg h]
    exact ⟨⟨"", (String.empty_append _).symm, by simp [String.toList]⟩, by omega⟩

/-- Claim C5: when the first non-skipped segment invocation that fails is at
index i, the pipeline raises RenderError carrying that invocation's stderr
(no manifest is produced, so the failure is fatal to the run), no segment
after i is rendered; and a non-zero exit of the final concat/mux likewise
yields a RenderError whose text carries the tool's stderr. -/
theorem render_failure_is_fatal
    (work_dir : String) (tool : ℕ → ToolResult) (fileExists : ℕ → Bool)
    (segments : List Segment) (i : ℕ)
    (hi : i < segments.length)
    (hnoskip : fileExists i = false)
    (hfail : (tool i).exitCode ≠ 0)
    (hprev : ∀ j, j < i → fileExists j = false → (tool j).exitCode = 0) :
    create_concat_file work_dir tool fileExists segments =
      Except.error (VideoError.RenderError (tool i).stderr) ∧
    (∀ j ∈ (renderSegmentsLoop tool fileExists segments 0).1, j ≤ i) ∧
    ∀ result : ToolResult, result.exitCode ≠ 0 →
      render_video result =
        Except.error (VideoError.RenderError
          ("Failed to render video: " ++ result.stderr)) := by
  obtain ⟨h2, h1⟩ := renderSegmentsLoop_fail segments 0 i tool fileExists
    (Nat.zero_le i) (by omega) hnoskip hfail (fun j _ hj hfe => hprev j hj hfe)
  refine ⟨?_, h1, ?_⟩
  · rw [create_concat_file_of_loop, h2]
  · intro result hr
    simp [render_video, hr]

/-- Witness for C5 at the spec section 8 tool-failure scenario: segment 0
renders fine, segment 1 exits 1 with stderr "invalid data found", and the
pipeline fails with a RenderError carrying exactly that text. -/
theorem render_failure_is_fatal_witness :
    create_concat_file "/wk"
        (fun j => if j = 1 then ⟨1, "", "invalid data found"⟩ else ⟨0, "", ""⟩)
        (fun _ => false)
        [⟨"a", "a.png", 0, 1, "x"⟩, ⟨"b", "b.png", 1, 1, "y"⟩,
          ⟨"c", "c.png", 2, 1, "z"⟩] =
      Except.error (VideoError.RenderError "invalid data found") :=
  (render_failure_is_fatal "/wk"
    (fun j => if j = 1 then ⟨1, "", "invalid data found"⟩ else ⟨0, "", ""⟩)
    (fun _ => false)
    [⟨"a", "a.png", 0, 1, "x"⟩, ⟨"b", "b.png", 1, 1, "y"⟩,
      ⟨"c", "c.png", 2, 1, "z"⟩]
    1 (by norm_num) rfl (by decide)
    (fun j hj hf => by interval_cases j; decide)).1

/-- Claim C7: a successful `_create_concat_file` writes exactly one manifest
line per segment, in segment order, line i being the `file` directive with
the quoted absolute clip path, and clip files are named by a zero-padded
sequence index. -/
theorem concat_manifest_lines
    (work_dir : String) (tool : ℕ → ToolResult) (fileExists : ℕ → Bool)
    (segments : List Segment) (manifest : List String) (rendered : List ℕ)
    (h : create_concat_file work_dir tool fileExists segments =
      Except.ok (manifest, rendered)) :
    manifest.length = segments.length ∧
    (∀ i (hi : i < manifest.length),
      manifest.get ⟨i, hi⟩ =
        "file " ++ squote ++ (work_dir ++ "/segment_" ++ formatIndex i ++ ".mp4")
          ++ squote) ∧
    ∀ i : ℕ,
      (∃ z : String, formatIndex i = z ++ toString i ∧ ∀ c ∈ z.toList, c = '0') ∧
      (formatIndex i).length = max 4 (toString i).length := by
  obtain ⟨hm, _, _⟩ := create_concat_file_ok work_dir tool fileExists segments
    manifest rendered h
  subst hm
  refine ⟨by simp, ?_, fun i => formatIndex_zero_pad i⟩
  intro i hi
  have hi2 : i < segments.length := by simpa using hi
  simp [List.get_eq_getElem, concatLine, segmentVideoPath, String.append_assoc]

/-- Witness for C7: a two-segment run with all clips pre-existing produces the
two expected manifest lines. -/
theorem concat_manifest_lines_witness :
    ((["file " ++ squote ++ ("/wk" ++ "/segment_" ++ formatIndex 0 ++ ".mp4") ++ squote,
       "file " ++ squote ++ ("/wk" ++ "/segment_" ++ formatIndex 1 ++ ".mp4") ++ squote] :
        List String).length =
      ([⟨"a", "a.png", 0, 1, "x"⟩, ⟨"b", "b.png", 1, 1, "y"⟩] : List Segment).length) ∧
    (∀ i (hi : i < (["file " ++ squote ++ ("/wk" ++ "/segment_" ++ formatIndex 0 ++ ".mp4") ++ squote,
       "file " ++ squote ++ ("/wk" ++ "/segment_" ++ formatIndex 1 ++ ".mp4") ++ squote] :
        List String).length),
      (["file " ++ squote ++ ("/wk" ++ "/segment_" ++ formatIndex 0 ++ ".mp4") ++ squote,
       "file " ++ squote ++ ("/wk" ++ "/segment_" ++ formatIndex 1 ++ ".mp4") ++ squote] :
        List String).get ⟨i, hi⟩ =
        "file " ++ squote ++ ("/wk" ++ "/segment_" ++ formatIndex i ++ ".mp4")
          ++ squote) ∧
    ∀ i : ℕ,
      (∃ z : String, formatIndex i = z ++ toString i ∧ ∀ c ∈ z.toList, c = '0') ∧
      (formatIndex i).length = max 4 (toString i).length :=
  concat_manifest_lines "/wk" (fun _ => ⟨0, "", ""⟩) (fun _ => true)
    [⟨"a", "a.png", 0, 1, "x"⟩, ⟨"b", "b.png", 1, 1, "y"⟩]
    ["file " ++ squote ++ ("/wk" ++ "/segment_" ++ formatIndex 0 ++ ".mp4") ++ squote,
     "file " ++ squote ++ ("/wk" ++ "/segment_" ++ formatIndex 1 ++ ".mp4") ++ squote]
    [] rfl

/-- Claim C8: a segment whose clip file already exists is never rendered (the
tool is not invoked on its index), and its clip still occupies its slot of
the manifest on a successful run. -/
theorem segment_render_skipped_when_exists
    (work_dir : String) (tool : ℕ → ToolResult) (fileExists : ℕ → Bool)
    (segments : List Segment) (i : ℕ)
    (hex : fileExists i = true) :
    i ∉ (renderSegmentsLoop tool fileExists segments 0).1 ∧
    ∀ manifest rendered,
      create_concat_file work_dir tool fileExists segments =
        Except.ok (manifest, rendered) →
      i ∉ rendered ∧
      (i < segments.length → manifest.get? i = some (concatLine work_dir i)) := by
  have hnot : i ∉ (renderSegmentsLoop tool fileExists segments 0).1 := by
    intro hmem
    have := renderSegmentsLoop_mem segments 0 tool fileExists i hmem
    rw [hex] at this
    exact absurd this (by simp)
  refine ⟨hnot, ?_⟩
  intro manifest rendered h
  obtain ⟨hm, hr, _⟩ := create_concat_file_ok work_dir tool fileExists segments
    manifest rendered h
  subst hm
  subst hr
  refine ⟨hnot, fun hi => ?_⟩
  simp [List.get?_eq_getElem?, hi]

/-- Witness for C8: with the single segment's clip pre-existing, the tool is
never invoked on index 0 and the manifest still lists the clip. -/
theorem segment_render_skipped_when_exists_witness :
    0 ∉ (renderSegmentsLoop (fun _ => ⟨1, "", "boom"⟩) (fun _ => true)
        [⟨"a", "a.png", 0, 1, "x"⟩] 0).1 ∧
    ∀ manifest rendered,
      create_concat_file "/wk" (fun _ => ⟨1, "", "boom"⟩) (fun _ => true)
        [⟨"a", "a.png", 0, 1, "x"⟩] = Except.ok (manifest, rendered) →
      0 ∉ rendered ∧
      (0 < ([⟨"a", "a.png", 0, 1, "x"⟩] : List Segment).length →
        manifest.get? 0 = some (concatLine "/wk" 0)) :=
  segment_render_skipped_when_exists "/wk" (fun _ => ⟨1, "", "boom"⟩)
    (fun _ => true) [⟨"a", "a.png", 0, 1, "x"⟩] 0 rfl


/-- Concrete evaluation of cleanup on a mixed working directory. -/
theorem cleanup_temp_files_example :
    cleanup_temp_files ["segment_0000.mp4", "segment_0001.mp4", "concat_list.txt",
      "avatars/avatar_chatgpt.png", "output.mp4"] =
    ["avatars/avatar_chatgpt.png", "output.mp4"] := by decide

/-- Claim C6: cleanup removes every per-segment clip file and the
concatenation manifest, touches nothing else — in particular files under
subdirectories such as the avatars cache, and any output not named like a
segment clip, survive — and it is idempotent, a second call being a no-op
(missing files are not an error: the function is total). -/
theorem cleanup_temp_files_spec (work_dir_files : List String) :
    (∀ nm ∈ cleanup_temp_files work_dir_files,
        matchesSegmentGlob nm = false ∧ nm ≠ "concat_list.txt") ∧
    (∀ nm ∈ work_dir_files,
        matchesSegmentGlob nm = false → nm ≠ "concat_list.txt" →
        nm ∈ cleanup_temp_files work_dir_files) ∧
    (∀ nm ∈ work_dir_files, '/' ∈ nm.toList →
        nm ∈ cleanup_temp_files work_dir_files) ∧
    cleanup_temp_files (cleanup_temp_files work_dir_files) =
      cleanup_temp_files work_dir_files := by
  have hmem : ∀ nm, nm ∈ cleanup_temp_files work_dir_files ↔
      nm ∈ work_dir_files ∧ matchesSegmentGlob nm = false ∧
        nm ≠ "concat_list.txt" := by
    intro nm
    simp only [cleanup_temp_files, List.mem_filter]
    constructor
    · rintro ⟨⟨h1, h2⟩, h3⟩
      refine ⟨h1, by simpa using h2, by simpa using h3⟩
    · rintro ⟨h1, h2, h3⟩
      exact ⟨⟨h1, by simp [h2]⟩, by simpa using h3⟩
  refine ⟨fun nm h => ((hmem nm).mp h).2, fun nm h h2 h3 => (hmem nm).mpr ⟨h, h2, h3⟩,
    ?_, ?_⟩
  · intro nm h hsl
    have hglob : matchesSegmentGlob nm = false := by
      have hc : nm.toList.contains '/' = true := by
        simpa using hsl
      unfold matchesSegmentGlob
      rw [hc]
      simp
    have hne : nm ≠ "concat_list.txt" := by
      intro heq
      rw [heq] at hsl
      exact absurd hsl (by decide)
    exact (hmem nm).mpr ⟨h, hglob, hne⟩
  · apply List.filter_eq_self.mpr ?_ |>.trans ?_
    · intro nm hnm
      have := ((hmem nm).mp (by
        simpa [cleanup_temp_files, List.mem_filter] using
          (List.mem_filter.mp hnm).1)).2.2
      simpa using this
    · apply List.filter_eq_self.mpr
      intro nm hnm
      have := ((hmem nm).mp hnm).2.1
      simp [this]


/-- Concrete evaluation of the avatar mapping. -/
theorem generate_all_avatars_example :
    generate_all_avatars "/wk/avatars" [("chatgpt", 0), ("gemini", 1)] =
    [("chatgpt", "/wk/avatars/avatar_chatgpt.png"),
     ("gemini", "/wk/avatars/avatar_gemini.png")] := by decide

/-- Claim C10: the avatars mapping returned by `generate_all_avatars` has
exactly the key sequence of the characters mapping (hence the same key set),
and each speaker s is bound to the deterministic path
`output_dir/avatar_<s>.png` that `generate_avatar` returns. -/
theorem generate_all_avatars_spec {α : Type} (output_dir : String)
    (characters : List (String × α)) :
    (generate_all_avatars output_dir characters).map Prod.fst =
      characters.map Prod.fst ∧
    (∀ p ∈ generate_all_avatars output_dir characters,
      p.2 = output_dir ++ "/avatar_" ++ p.1 ++ ".png") ∧
    ∀ s c, (s, c) ∈ characters →
      (s, generate_avatar output_dir s c) ∈ generate_all_avatars output_dir characters := by
  refine ⟨by simp [generate_all_avatars], ?_, ?_⟩
  · intro p hp
    simp only [generate_all_avatars, List.mem_map] at hp
    obtain ⟨sc, _, hsc⟩ := hp
    rw [← hsc]
    rfl
  · intro s c hmem
    simp only [generate_all_avatars, List.mem_map]
    exact ⟨(s, c), hmem, rfl⟩

end Pressroom
